import Mathlib

/-!
Shallow embedding of the WhatsApp gateway service (src/server.js) and proofs
of the specification claims about it.

The embedding models:
* JavaScript request-body values (`JsValue`) so that falsiness and `typeof`
  checks of the validator can be stated faithfully;
* the input validator `validateMessageInput`;
* the phone-number normalizer `formatPhoneNumber`;
* the mutable connection state (`ClientState`) and the lifecycle event
  handlers registered on the external client;
* the `/send-whatsapp` handler as a function of the state, an abstract
  external channel, and the request, returning the HTTP outcome together
  with the list of external-channel calls it performed;
* the `/qr` and `/health` endpoint handlers.
-/

namespace WAService

/-- A JavaScript value that can appear in a parsed JSON request-body field.
Numbers are modelled as integers (the validator only tests falsiness and
`typeof`, which this model captures for these constructors). -/
inductive JsValue where
  | str (s : String)
  | num (n : Int)
  | jbool (b : Bool)
  | jnull
  deriving DecidableEq, Repr

/-- JavaScript truthiness for a modelled value: `""`, `0`, `false` and
`null` are falsy. -/
def JsValue.truthy : JsValue → Bool
  | .str s => !(s == "")
  | .num n => !(n == 0)
  | .jbool b => b
  | .jnull => false

/-- `typeof v === "string"`. -/
def JsValue.isStr : JsValue → Bool
  | .str _ => true
  | _ => false

/-- The string wrapped in a value; defaults to `""` for non-strings
(only ever consulted on paths where the type check already passed). -/
def JsValue.asStr : JsValue → String
  | .str s => s
  | _ => ""

/-- A request body as destructured by the handlers:
`const { number, message } = req.body` — each field may be absent. -/
structure ReqBody where
  number : Option JsValue
  message : Option JsValue
  deriving DecidableEq, Repr

/-- Truthiness of a possibly-absent field: `undefined` is falsy. -/
def fieldTruthy : Option JsValue → Bool
  | none => false
  | some v => v.truthy

/-- `typeof field === "string"` for a possibly-absent field. -/
def fieldIsStr : Option JsValue → Bool
  | none => false
  | some v => v.isStr

/-- The string held by a possibly-absent field (defaults to `""`). -/
def fieldStr : Option JsValue → String
  | none => ""
  | some v => v.asStr

/-- JavaScript `String.prototype.trim`: drops whitespace from both ends
(stated on the character list so it evaluates in the kernel). -/
def jsTrim (s : String) : String :=
  String.mk
    (((s.toList.dropWhile Char.isWhitespace).reverse.dropWhile
      Char.isWhitespace).reverse)

/-- The four rejection rules of `validateMessageInput`, in source order. -/
inductive ValidationError where
  | missingFields
  | invalidTypes
  | emptyMessage
  | messageTooLong
  deriving DecidableEq, Repr

/-- `validateMessageInput` (src/server.js:226-285): returns the first
violated rule, or `none` when the request passes validation and the route
handler runs. The first check is JavaScript `!number || !message`
(falsiness, so empty strings and zero count as missing). -/
def validateMessageInput (b : ReqBody) : Option ValidationError :=
  if !(fieldTruthy b.number) || !(fieldTruthy b.message) then
    some .missingFields
  else if !(fieldIsStr b.number) || !(fieldIsStr b.message) then
    some .invalidTypes
  else if (jsTrim (fieldStr b.message)).length == 0 then
    some .emptyMessage
  else if (fieldStr b.message).length > 4096 then
    some .messageTooLong
  else
    none

/-- HTTP status attached to each validation rejection (all are 400). -/
def ValidationError.status : ValidationError → Nat :=
  fun _ => 400

/-- Whether the rejection response carries the example payload
(`{number: "919876543210", message: "Hello from backend 🚀"}`):
only the missing-fields rejection does. -/
def ValidationError.hasExample : ValidationError → Bool
  | .missingFields => true
  | _ => false

/-- `formatPhoneNumber` (src/server.js:288-299): strips non-digit
characters, prefixes `"91"` when exactly 10 digits remain, appends
`"@c.us"`. -/
def formatPhoneNumber (number : String) : String :=
  let cleanNumber := String.mk (number.toList.filter Char.isDigit)
  let formattedNumber :=
    if cleanNumber.length == 10 then "91" ++ cleanNumber else cleanNumber
  formattedNumber ++ "@c.us"

/-- The module-level mutable connection state (src/server.js:4,106-108):
`isClientReady`, `clientInitializing`, and the stored QR data URL served by
`/qr` (`qrCodeDataUrl`, `none` until the first `qr` event fires). -/
structure ClientState where
  isClientReady : Bool
  clientInitializing : Bool
  qrCodeDataUrl : Option String
  deriving DecidableEq, Repr

/-- Observable effect of a call to `initializeWhatsApp`. -/
inductive InitEffect where
  | warnedAlreadyInProgress
  | startedClient
  deriving DecidableEq, Repr

/-- `initializeWhatsApp` (src/server.js:110-223): if `clientInitializing`
is already set the call only logs a warning and returns; otherwise it sets
the guard and starts establishing a new external client. -/
def initializeWhatsApp (s : ClientState) : ClientState × InitEffect :=
  if s.clientInitializing then
    (s, .warnedAlreadyInProgress)
  else
    ({ s with clientInitializing := true }, .startedClient)

/-- Handler for the `qr` event (src/server.js:145-157): stores the encoded
QR image for the `/qr` endpoint. -/
def onQr (s : ClientState) (url : String) : ClientState :=
  { s with qrCodeDataUrl := some url }

/-- Handler for the `authenticated` event (src/server.js:160-163): the body
only logs — it mutates none of the module-level state variables. -/
def onAuthenticated (s : ClientState) : ClientState :=
  s

/-- Handler for the `auth_failure` event (src/server.js:165-170). -/
def onAuthFailure (s : ClientState) : ClientState :=
  { s with isClientReady := false, clientInitializing := false }

/-- Handler for the `ready` event (src/server.js:173-178). -/
def onReady (s : ClientState) : ClientState :=
  { s with isClientReady := true, clientInitializing := false }

/-- A reconnect scheduled by `setTimeout`: the delay in milliseconds before
`initializeWhatsApp` is invoked again. -/
structure ScheduledInit where
  delayMs : Nat
  deriving DecidableEq, Repr

/-- Handler for the `disconnected` event (src/server.js:181-193): clears
both flags and schedules exactly one `initializeWhatsApp` call 5000 ms
later. -/
def onDisconnected (s : ClientState) : ClientState × List ScheduledInit :=
  ({ s with isClientReady := false, clientInitializing := false }, [⟨5000⟩])

/-- Handler for the `error` event (src/server.js:196-203): logs the error
and sets `clientInitializing = false`. -/
def onError (s : ClientState) : ClientState :=
  { s with clientInitializing := false }

/-- Response of the `/qr` endpoint (src/server.js:343-349). -/
inductive QrResponse where
  | page (status : Nat) (dataUrl : String)
  | notAvailable (status : Nat)
  deriving DecidableEq, Repr

/-- `/qr` handler: serves the stored image (HTTP 200, the Express default)
when one is stored, otherwise a 404 error body. -/
def qrEndpoint (s : ClientState) : QrResponse :=
  match s.qrCodeDataUrl with
  | some url => .page 200 url
  | none => .notAvailable 404

/-- The `checks` object built by the `/health` handler. -/
structure HealthChecks where
  server : String
  whatsapp : String
  memory : String
  deriving DecidableEq, Repr

/-- `/health` handler (src/server.js:351-367), parameterized by the current
heap usage in bytes: builds the checks and returns 200 when the `server`
check is `"ok"`, 503 otherwise. -/
def healthEndpoint (s : ClientState) (heapUsed : Nat) : Nat × HealthChecks :=
  let health : HealthChecks :=
    { server := "ok"
      whatsapp := if s.isClientReady then "ok" else "disconnected"
      memory := if heapUsed < 500 * 1024 * 1024 then "ok" else "warning" }
  let statusCode := if health.server == "ok" then 200 else 503
  (statusCode, health)

/-- The external channel as seen by the send handler: the two awaited
methods. `Except.error msg` models the promise rejecting with an error
whose `.message` is `msg`; `getNumberId` resolves to `none` when the
address is not registered, `sendMessage` resolves to the sent message's
serialized id. -/
structure Channel where
  getNumberId : String → Except String (Option String)
  sendMessage : String → String → Except String String

/-- One call made to the external channel by the send handler, in order. -/
inductive ChannelCall where
  | checkNumber (chatId : String)
  | dispatch (chatId : String) (message : String)
  deriving DecidableEq, Repr

/-- The JSON outcome of the `/send-whatsapp` route handler, one constructor
per `res.status(...).json(...)` site (src/server.js:369-461), carrying the
response fields the spec talks about. -/
inductive SendOutcome where
  | notReady (clientInitializing : Bool)
  | notRegistered (number : String)
  | sent (toNumber chatId messageId : String) (responseTime : Nat)
  | sendFailed (details : String) (responseTime : Nat)
  deriving DecidableEq, Repr

/-- HTTP status of each send outcome. -/
def SendOutcome.status : SendOutcome → Nat
  | .notReady _ => 503
  | .notRegistered _ => 404
  | .sent _ _ _ _ => 200
  | .sendFailed _ _ => 500

/-- Everything observable about one run of the route handler: the response,
the external-channel calls it made (in order), and the error details logged
by the catch block via `logger.error`. -/
structure HandlerRun where
  response : SendOutcome
  calls : List ChannelCall
  errorLogs : List String
  deriving DecidableEq, Repr

/-- The `error.message` shown to the caller by the catch block: the real
message in development mode, a generic one otherwise
(src/server.js:453-456). -/
def detailsFor (nodeEnv : String) (errMsg : String) : String :=
  if nodeEnv == "development" then errMsg else "Internal server error"

/-- The `/send-whatsapp` route handler body (src/server.js:369-461), run
after `validateMessageInput` has passed. `elapsed` stands for the measured
`Date.now() - startTime` at response time; `nodeEnv` is
`process.env.NODE_ENV`. Any rejection from an awaited channel call lands in
the catch block, which logs the message and answers 500. -/
def sendWhatsapp (st : ClientState) (ch : Channel) (number message : String)
    (elapsed : Nat) (nodeEnv : String) : HandlerRun :=
  if !st.isClientReady then
    { response := .notReady st.clientInitializing, calls := [], errorLogs := [] }
  else
    let chatId := formatPhoneNumber number
    match ch.getNumberId chatId with
    | .error e =>
      { response := .sendFailed (detailsFor nodeEnv e) elapsed
        calls := [.checkNumber chatId]
        errorLogs := [e] }
    | .ok none =>
      { response := .notRegistered number
        calls := [.checkNumber chatId]
        errorLogs := [] }
    | .ok (some _) =>
      match ch.sendMessage chatId message with
      | .error e =>
        { response := .sendFailed (detailsFor nodeEnv e) elapsed
          calls := [.checkNumber chatId, .dispatch chatId message]
          errorLogs := [e] }
      | .ok msgId =>
        { response := .sent number chatId msgId elapsed
          calls := [.checkNumber chatId, .dispatch chatId message]
          errorLogs := [] }

/-- Restated from the specification's words, for the refinement claim about
the normalizer: strip every character that is not a decimal digit; if the
resulting digit string has exactly 10 digits, prepend the fixed default
country-code prefix `"91"`; append the fixed channel-address suffix
`"@c.us"`. -/
def normalizeSpec (raw : String) : String :=
  let digits := String.mk (raw.toList.filter Char.isDigit)
  if digits.length = 10 then "91" ++ digits ++ "@c.us"
  else digits ++ "@c.us"

/-- Whether a given validation rule is violated by a body, with the exact
conditions the code tests (the missing-fields rule is the JavaScript
falsiness test). Used to state that the validator reports the first
violated rule. -/
def ruleViolated (b : ReqBody) : ValidationError → Bool
  | .missingFields => !(fieldTruthy b.number) || !(fieldTruthy b.message)
  | .invalidTypes => !(fieldIsStr b.number) || !(fieldIsStr b.message)
  | .emptyMessage => (jsTrim (fieldStr b.message)).length == 0
  | .messageTooLong => decide ((fieldStr b.message).length > 4096)

/-- The validation rules in the order the code checks them. -/
def validationRules : List ValidationError :=
  [.missingFields, .invalidTypes, .emptyMessage, .messageTooLong]

/-- A stub channel used to instantiate universally quantified theorems at
concrete inputs: every address is unregistered and every dispatch resolves
to an empty id. -/
def stubChannel : Channel :=
  ⟨fun _ => .ok none, fun _ _ => .ok ""⟩

/-- A stub channel on which address `"919876543210@c.us"` is registered. -/
def stubChannelKnown : Channel :=
  ⟨fun chatId => .ok (if chatId == "919876543210@c.us" then some "id0" else none),
   fun _ _ => .ok "msg0"⟩

/-- A stub channel whose calls all reject with message `"boom"`. -/
def stubChannelThrowing : Channel :=
  ⟨fun _ => .error "boom", fun _ _ => .error "boom"⟩

/-- Claim C2: for every input string, the normalizer removes every
non-digit character; with exactly 10 digits left it returns
`"91" ++ digits ++ "@c.us"`, otherwise `digits ++ "@c.us"` with no prefix.
The code's `formatPhoneNumber` coincides with the specification's
description on every input (determinism and absence of side effects hold
because it is a total function of its argument). -/
theorem formatPhoneNumber_matches_spec (raw : String) :
    formatPhoneNumber raw = normalizeSpec raw := by
  unfold formatPhoneNumber normalizeSpec
  by_cases h : (List.filter Char.isDigit raw.data).length = 10 <;>
    simp [String.toList, h, String.append_assoc]

/-- Claim C9: the `/health` endpoint computes its status as 200 exactly
when the `server` check is `"ok"` (503 otherwise); the `server` check is
always `"ok"`, so the endpoint answers 200 for every connection state, in
particular when the `whatsapp` check reports `"disconnected"`. -/
theorem health_ok_rule (st : ClientState) (heapUsed : Nat) :
    (healthEndpoint st heapUsed).1
      = (if (healthEndpoint st heapUsed).2.server == "ok" then 200 else 503)
    ∧ (healthEndpoint st heapUsed).2.server = "ok"
    ∧ (healthEndpoint st heapUsed).2.whatsapp
      = (if st.isClientReady then "ok" else "disconnected")
    ∧ (healthEndpoint st heapUsed).1 = 200 := by
  simp [healthEndpoint]

/-- Claim C3 counterexample: in a state holding a stored QR challenge, the
`authenticated` event handler does not clear it, and the `/qr` endpoint
still serves the challenge (HTTP 200) after authentication — refuting the
claim that authentication clears the stored challenge. -/
theorem authenticated_keeps_qr_counterexample :
    (onAuthenticated ⟨false, true, some "QR"⟩).qrCodeDataUrl ≠ none
    ∧ qrEndpoint (onAuthenticated ⟨false, true, some "QR"⟩)
      = .page 200 "QR" := by
  constructor
  · simp [onAuthenticated]
  · rfl

/-- Claim C3 (amended): the `authenticated` handler only logs — it leaves
the entire state unchanged; in particular the stored QR challenge is not
cleared, and the `/qr` endpoint serves exactly what it served before
authentication. -/
theorem authenticated_changes_nothing (s : ClientState) :
    onAuthenticated s = s
    ∧ qrEndpoint (onAuthenticated s) = qrEndpoint s := by
  exact ⟨rfl, rfl⟩

/-- Claim C4 counterexample: when a channel-level `error` event arrives
while `clientInitializing = true`, the handler changes the state (it clears
the initializing guard) — refuting the claim that the error handler leaves
every state field unchanged. -/
theorem error_changes_state_counterexample :
    onError ⟨true, true, none⟩ ≠ (⟨true, true, none⟩ : ClientState)
    ∧ (onError ⟨true, true, none⟩).clientInitializing = false := by
  constructor
  · simp [onError]
  · rfl

/-- Claim C4 (amended): the `error` event handler leaves the readiness flag
and the stored QR challenge unchanged, but always clears the
re-entrancy/initializing guard. -/
theorem error_handler_frame (s : ClientState) :
    (onError s).isClientReady = s.isClientReady
    ∧ (onError s).qrCodeDataUrl = s.qrCodeDataUrl
    ∧ (onError s).clientInitializing = false := by
  exact ⟨rfl, rfl, rfl⟩

/-- Claim C1: for every request that passes validation, if the client is
not ready the handler answers `ChannelNotReady` with HTTP 503, the response
reports whether initialization is in progress (the `clientInitializing`
flag), and no external-channel call is made — neither the existence check
nor the dispatch. -/
theorem send_not_ready_rejects (st : ClientState) (ch : Channel)
    (number message : String) (elapsed : Nat) (nodeEnv : String)
    (hval : validateMessageInput ⟨some (.str number), some (.str message)⟩ = none)
    (hnr : st.isClientReady = false) :
    (sendWhatsapp st ch number message elapsed nodeEnv).response
      = .notReady st.clientInitializing
    ∧ (sendWhatsapp st ch number message elapsed nodeEnv).response.status = 503
    ∧ (sendWhatsapp st ch number message elapsed nodeEnv).calls = [] := by
  simp [sendWhatsapp, hnr, SendOutcome.status]

/-- Claim C1 witness: a concrete non-ready state with a validated request. -/
theorem send_not_ready_rejects_witness :
    (sendWhatsapp ⟨false, true, none⟩ stubChannel "9876543210" "hi" 7 "production").response
      = .notReady true
    ∧ (sendWhatsapp ⟨false, true, none⟩ stubChannel "9876543210" "hi" 7 "production").response.status
      = 503
    ∧ (sendWhatsapp ⟨false, true, none⟩ stubChannel "9876543210" "hi" 7 "production").calls
      = [] :=
  send_not_ready_rejects ⟨false, true, none⟩ stubChannel "9876543210" "hi" 7
    "production" (by decide) (by decide)

/-- Claim C5: the `disconnected` handler clears the re-entrancy guard and
schedules exactly one `initializeWhatsApp` call with a fixed 5000 ms
backoff; `initializeWhatsApp` invoked while the guard is set is a no-op
that only logs a warning, and when the guard is clear it sets the guard, so
at most one external client is being established at a time. -/
theorem disconnected_reconnect_guard (s : ClientState) :
    (onDisconnected s).1.clientInitializing = false
    ∧ (onDisconnected s).2 = [⟨5000⟩]
    ∧ (∀ t : ClientState, t.clientInitializing = true →
        initializeWhatsApp t = (t, .warnedAlreadyInProgress))
    ∧ (∀ t : ClientState, t.clientInitializing = false →
        initializeWhatsApp t
          = ({ t with clientInitializing := true }, .startedClient)) := by
  refine ⟨rfl, rfl, ?_, ?_⟩
  · intro t ht
    simp [initializeWhatsApp, ht]
  · intro t ht
    simp [initializeWhatsApp, ht]

/-- Claim C5 witness: the guarded no-op and the guard-setting start at
concrete states. -/
theorem disconnected_reconnect_guard_witness :
    initializeWhatsApp ⟨false, true, none⟩
      = (⟨false, true, none⟩, .warnedAlreadyInProgress)
    ∧ initializeWhatsApp ⟨false, false, none⟩
      = (⟨false, true, none⟩, .startedClient) :=
  ⟨(disconnected_reconnect_guard ⟨false, false, none⟩).2.2.1
      ⟨false, true, none⟩ rfl,
   (disconnected_reconnect_guard ⟨false, false, none⟩).2.2.2
      ⟨false, false, none⟩ rfl⟩

/-- Claim C7: while ready, a send to raw destination `"9876543210"`
normalizes to `"919876543210@c.us"`, first asks the channel whether that
address exists; if it exists the dispatch goes to exactly that address and
the success result carries `to = "9876543210"`, `chatId =
"919876543210@c.us"`, the channel message id and the elapsed time (HTTP
200); if the existence check reports the address unknown the handler
answers `DestinationNotRegistered` (HTTP 404) without dispatching. -/
theorem send_ready_end_to_end (st : ClientState) (ch : Channel)
    (message : String) (elapsed : Nat) (nodeEnv : String)
    (hready : st.isClientReady = true) :
    formatPhoneNumber "9876543210" = "919876543210@c.us"
    ∧ ((sendWhatsapp st ch "9876543210" message elapsed nodeEnv).calls.head?
        = some (.checkNumber "919876543210@c.us"))
    ∧ (∀ mid msgId, ch.getNumberId "919876543210@c.us" = .ok (some mid) →
        ch.sendMessage "919876543210@c.us" message = .ok msgId →
        (sendWhatsapp st ch "9876543210" message elapsed nodeEnv).response
          = .sent "9876543210" "919876543210@c.us" msgId elapsed
        ∧ (sendWhatsapp st ch "9876543210" message elapsed nodeEnv).response.status
          = 200
        ∧ (sendWhatsapp st ch "9876543210" message elapsed nodeEnv).calls
          = [.checkNumber "919876543210@c.us",
             .dispatch "919876543210@c.us" message])
    ∧ (ch.getNumberId "919876543210@c.us" = .ok none →
        (sendWhatsapp st ch "9876543210" message elapsed nodeEnv).response
          = .notRegistered "9876543210"
        ∧ (sendWhatsapp st ch "9876543210" message elapsed nodeEnv).response.status
          = 404
        ∧ (sendWhatsapp st ch "9876543210" message elapsed nodeEnv).calls
          = [.checkNumber "919876543210@c.us"]) := by
  have hfmt : formatPhoneNumber "9876543210" = "919876543210@c.us" := by decide
  refine ⟨hfmt, ?_, ?_, ?_⟩
  · simp only [sendWhatsapp, hready, Bool.not_true, Bool.false_eq_true,
      if_false, hfmt]
    cases hg : Channel.getNumberId ch "919876543210@c.us" with
    | error e => simp
    | ok v =>
      cases v with
      | none => simp
      | some mid =>
        cases Channel.sendMessage ch "919876543210@c.us" message <;> simp
  · intro mid msgId hg hs
    simp [sendWhatsapp, hready, hfmt, hg, hs, SendOutcome.status]
  · intro hg
    simp [sendWhatsapp, hready, hfmt, hg, SendOutcome.status]

/-- Claim C7 witness: the ready path at a concrete state and stub channel,
in both the registered and the unregistered case. -/
theorem send_ready_end_to_end_witness :
    ((sendWhatsapp ⟨true, false, none⟩ stubChannelKnown "9876543210" "hi" 5 "production").response
      = .sent "9876543210" "919876543210@c.us" "msg0" 5)
    ∧ ((sendWhatsapp ⟨true, false, none⟩ stubChannel "9876543210" "hi" 5 "production").response
      = .notRegistered "9876543210") :=
  ⟨((send_ready_end_to_end ⟨true, false, none⟩ stubChannelKnown "hi" 5 "production"
      rfl).2.2.1 "id0" "msg0" rfl rfl).1,
   ((send_ready_end_to_end ⟨true, false, none⟩ stubChannel "hi" 5 "production"
      rfl).2.2.2 rfl).1⟩

/-- Claim C8: whenever an awaited external-channel call rejects, the
handler answers `SendFailed` (HTTP 500) carrying the elapsed time; the
response detail is the underlying error message exactly in development mode
and the generic `"Internal server error"` otherwise (stated as an iff for
any underlying message distinct from the generic text), while the full
underlying message is logged. -/
theorem send_failure_detail_policy (st : ClientState) (ch : Channel)
    (number message : String) (elapsed : Nat) (nodeEnv : String) (e : String)
    (hready : st.isClientReady = true)
    (hthrow : ch.getNumberId (formatPhoneNumber number) = .error e
      ∨ ∃ mid, ch.getNumberId (formatPhoneNumber number) = .ok (some mid)
          ∧ ch.sendMessage (formatPhoneNumber number) message = .error e) :
    (sendWhatsapp st ch number message elapsed nodeEnv).response
      = .sendFailed (detailsFor nodeEnv e) elapsed
    ∧ (sendWhatsapp st ch number message elapsed nodeEnv).response.status = 500
    ∧ (nodeEnv = "development" → detailsFor nodeEnv e = e)
    ∧ (nodeEnv ≠ "development" → detailsFor nodeEnv e = "Internal server error")
    ∧ (e ≠ "Internal server error" →
        (detailsFor nodeEnv e = e ↔ nodeEnv = "development"))
    ∧ (sendWhatsapp st ch number message elapsed nodeEnv).errorLogs = [e] := by
  have hresp :
      (sendWhatsapp st ch number message elapsed nodeEnv).response
        = .sendFailed (detailsFor nodeEnv e) elapsed
      ∧ (sendWhatsapp st ch number message elapsed nodeEnv).errorLogs = [e] := by
    rcases hthrow with hg | ⟨mid, hg, hs⟩
    · constructor <;> simp [sendWhatsapp, hready, hg]
    · constructor <;> simp [sendWhatsapp, hready, hg, hs]
  refine ⟨hresp.1, ?_, ?_, ?_, ?_, hresp.2⟩
  · rw [hresp.1]; rfl
  · intro hdev; simp [detailsFor, hdev]
  · intro hdev; simp [detailsFor, hdev]
  · intro hne
    unfold detailsFor
    by_cases hdev : nodeEnv = "development" <;> simp [hdev, Ne.symm hne]

/-- Claim C8 witness: a throwing channel in production mode — 500, generic
detail, real message logged. -/
theorem send_failure_detail_policy_witness :
    (sendWhatsapp ⟨true, false, none⟩ stubChannelThrowing "9876543210" "hi" 9 "production").response
      = .sendFailed "Internal server error" 9
    ∧ (sendWhatsapp ⟨true, false, none⟩ stubChannelThrowing "9876543210" "hi" 9 "production").errorLogs
      = ["boom"] := by
  have h := send_failure_detail_policy ⟨true, false, none⟩ stubChannelThrowing
    "9876543210" "hi" 9 "production" "boom" rfl (Or.inl rfl)
  refine ⟨?_, h.2.2.2.2.2⟩
  have hd : detailsFor "production" "boom" = "Internal server error" :=
    h.2.2.2.1 (by decide)
  rw [h.1, hd]

/-- Claim C6: the validator rejects (HTTP 400, all four rejection sites)
exactly when one of the four rules is violated — `number` or `message`
missing (the code's presence test is JavaScript falsiness, so the empty
string counts as missing), either not a string, `message` trimmed empty, or
`message` longer than 4096 — and it reports precisely the first violated
rule in that order; a body without `message` gets the missing-fields
rejection, the only one carrying the example payload; and any body whose
message string exceeds 4096 characters is rejected. -/
theorem validator_first_rule_exact :
    (∀ b : ReqBody,
        validateMessageInput b = validationRules.find? (ruleViolated b)
        ∧ ((validateMessageInput b).isSome ↔ ∃ r, ruleViolated b r = true)
        ∧ (∀ r, validateMessageInput b = some r →
            r.status = 400 ∧ (r.hasExample = true ↔ r = .missingFields))
        ∧ (b.message = none →
            validateMessageInput b = some .missingFields))
    ∧ (∀ b : ReqBody, (fieldStr b.message).length > 4096 →
        (validateMessageInput b).isSome) := by
  have key : ∀ b : ReqBody,
      validateMessageInput b = validationRules.find? (ruleViolated b) := by
    intro b
    by_cases h1 : (!fieldTruthy b.number || !fieldTruthy b.message) = true <;>
    by_cases h2 : (!fieldIsStr b.number || !fieldIsStr b.message) = true <;>
    by_cases h3 : ((jsTrim (fieldStr b.message)).length == 0) = true <;>
    by_cases h4 : (fieldStr b.message).length > 4096 <;>
      simp [validateMessageInput, validationRules, ruleViolated,
        List.find?, h1, h2, h3, h4]
  have mem_all : ∀ r : ValidationError, r ∈ validationRules := by
    intro r
    cases r <;> simp [validationRules]
  refine ⟨fun b => ⟨key b, ?_, ?_, ?_⟩, ?_⟩
  · rw [key b, List.find?_isSome]
    constructor
    · rintro ⟨r, _, hr⟩
      exact ⟨r, hr⟩
    · rintro ⟨r, hr⟩
      exact ⟨r, mem_all r, hr⟩
  · intro r _
    refine ⟨rfl, ?_⟩
    cases r <;> simp [ValidationError.hasExample]
  · intro hnone
    simp [validateMessageInput, hnone, fieldTruthy]
  · intro b hlen
    rw [key b, List.find?_isSome]
    refine ⟨.messageTooLong, mem_all _, ?_⟩
    simp [ruleViolated, hlen]

/-- Claim C6 witness: a body missing the message is rejected by the
missing-fields rule, and a 4097-character message is rejected. -/
theorem validator_first_rule_exact_witness :
    validateMessageInput ⟨some (.str "919876543210"), none⟩
      = some .missingFields
    ∧ (validateMessageInput
        ⟨some (.str "a"),
         some (.str (String.mk (List.replicate 4097 (Char.ofNat 97))))⟩).isSome := by
  constructor
  · exact (validator_first_rule_exact.1 ⟨some (.str "919876543210"), none⟩).2.2.2 rfl
  · apply validator_first_rule_exact.2
    show 4096 < (String.mk (List.replicate 4097 (Char.ofNat 97))).length
    have hlen : (String.mk (List.replicate 4097 (Char.ofNat 97))).length
        = (List.replicate 4097 (Char.ofNat 97)).length := rfl
    rw [hlen, List.length_replicate]
    decide

/-- Claim C10: a request whose number is a non-empty string with no decimal
digit and whose message is valid passes the validator, the normalizer maps
the number to the implausible address `"@c.us"`, and a ready-state send
consults the external existence check with exactly that address — no rule
rejects it earlier; an empty-string number is instead caught by the
missing-fields rule, since the presence check treats the empty string as
missing. -/
theorem no_digit_number_reaches_channel (number message : String)
    (hnum : number ≠ "")
    (hnodigit : ∀ c ∈ number.data, c.isDigit = false)
    (hmsg : message ≠ "")
    (htrim : (jsTrim message).length ≠ 0)
    (hlen : message.length ≤ 4096) :
    validateMessageInput ⟨some (.str number), some (.str message)⟩ = none
    ∧ formatPhoneNumber number = "@c.us"
    ∧ (∀ st : ClientState, ∀ ch : Channel, ∀ elapsed : Nat, ∀ nodeEnv : String,
        st.isClientReady = true →
        (sendWhatsapp st ch number message elapsed nodeEnv).calls.head?
          = some (.checkNumber "@c.us"))
    ∧ (∀ m : String, validateMessageInput ⟨some (.str ""), some (.str m)⟩
        = some .missingFields) := by
  have hfmt : formatPhoneNumber number = "@c.us" := by
    have hfil : number.data.filter Char.isDigit = [] := by
      rw [List.filter_eq_nil_iff]
      intro c hc
      simp [hnodigit c hc]
    simp [formatPhoneNumber, String.toList, hfil]
  refine ⟨?_, hfmt, ?_, ?_⟩
  · simp [validateMessageInput, fieldTruthy, fieldIsStr, fieldStr,
      JsValue.truthy, JsValue.isStr, JsValue.asStr, hnum, hmsg, htrim,
      Nat.not_lt.mpr hlen]
  · intro st ch elapsed nodeEnv hready
    simp only [sendWhatsapp, hready, Bool.not_true, Bool.false_eq_true,
      if_false, hfmt]
    cases hg : Channel.getNumberId ch "@c.us" with
    | error e => simp
    | ok v =>
      cases v with
      | none => simp
      | some mid =>
        cases Channel.sendMessage ch "@c.us" message <;> simp
  · intro m
    simp [validateMessageInput, fieldTruthy, JsValue.truthy]

/-- Claim C10 witness: number `"abc"`, message `"hi"`, a ready state and a
stub channel. -/
theorem no_digit_number_reaches_channel_witness :
    validateMessageInput ⟨some (.str "abc"), some (.str "hi")⟩ = none
    ∧ formatPhoneNumber "abc" = "@c.us"
    ∧ (sendWhatsapp ⟨true, false, none⟩ stubChannel "abc" "hi" 3 "production").calls.head?
      = some (.checkNumber "@c.us") := by
  have h := no_digit_number_reaches_channel "abc" "hi" (by decide) (by decide)
    (by decide) (by decide) (by decide)
  exact ⟨h.1, h.2.1, h.2.2.1 ⟨true, false, none⟩ stubChannel 3 "production" rfl⟩

end WAService
